import Mathlib

/-! Verification of the Edge API Data Downloader (src/Edge_API.py).

This file is a shallow embedding of the script's logic: the login
membership check, the static endpoint registry, form-state to
query-parameter construction (epoch conversion, granularity options,
URL building), the required-parameter validation loop, the response
dispatch on error-code / empty payloads, and the readable-timestamp
column derivation applied before the CSV export.  Machine dates and
epochs are modelled with `Int`; Python dict/list values with explicit
inductive types. -/

namespace EdgeAPI

/-- Calendar date as produced by one of the two st.date_input pickers. -/
structure CivilDate where
  year : Int
  month : Int
  day : Int
  deriving DecidableEq, Repr

/-- Days elapsed since 1970-01-01 for a proleptic Gregorian date (the
standard civil-from-days arithmetic; `/` on `Int` is Euclidean division,
which for the positive divisors used here is floor division). -/
def daysFromCivil (d : CivilDate) : Int :=
  let y := if d.month ≤ 2 then d.year - 1 else d.year
  let era := y / 400
  let yoe := y - era * 400
  let mp := if d.month ≤ 2 then d.month + 9 else d.month - 3
  let doy := (153 * mp + 2) / 5 + d.day - 1
  let doe := yoe * 365 + yoe / 4 - yoe / 100 + doy
  era * 146097 + doe - 719468

/-- Source line 126-127: int(datetime.combine(start_date, time.min,
tzinfo=timezone.utc).timestamp()) — epoch seconds of 00:00:00 UTC. -/
def startEpoch (d : CivilDate) : Int := 86400 * daysFromCivil d

/-- Source line 132-133: int(datetime.combine(end_date, time.max,
tzinfo=timezone.utc).timestamp()).  The exact timestamp value is
startEpoch d + 86399.999999 and Python's int() truncates toward zero,
so the result is startEpoch d + 86399 when that timestamp is
nonnegative (startEpoch d ≥ -86399) and startEpoch d + 86400 otherwise. -/
def endEpoch (d : CivilDate) : Int :=
  if -86399 ≤ startEpoch d then startEpoch d + 86399 else startEpoch d + 86400

/-- Source line 138: (end_date - start_date).days, an exact signed
whole-day difference between two Python dates. -/
def date_range_days (start_date end_date : CivilDate) : Int :=
  daysFromCivil end_date - daysFromCivil start_date

/-- Source lines 140-146: the granularity options offered for a computed
span in days. -/
def granularity_options (days : Int) : List String :=
  if days < 1 then ["1m", "5m", "15m", "1h", "daily"]
  else if 1 ≤ days ∧ days ≤ 7 then ["15m", "1h", "daily"]
  else ["1h", "daily"]

/-- st.selectbox renders with the first option selected by default, so
with no user interaction it returns the head of the option list. -/
def selectbox_default (options : List String) : String := options.headD ""

/-- One entry of the `endpoints` dict (source lines 62-93). -/
structure Endpoint where
  name : String
  path : String
  description : String
  params : List String
  required_params : List String
  deriving DecidableEq, Repr

def devices_ep : Endpoint :=
  { name := "Devices"
    path := "/devices"
    description := "Returns device details based on the API Key and optional device serial ID."
    params := ["device_serialid"]
    required_params := [] }

def events_interval_ep : Endpoint :=
  { name := "Events Interval"
    path := "/events/interval/"
    description := "Returns event details based on the device_serialid provided within the time stamps."
    params := ["device_serialid", "dates"]
    required_params := ["device_serialid"] }

def pq_live_ep : Endpoint :=
  { name := "Power Quality Live"
    path := "/powerquality/live/"
    description := "Returns live power quality based on the serialid provided."
    params := ["device_serialid"]
    required_params := ["device_serialid"] }

def pq_interval_ep : Endpoint :=
  { name := "Power Quality Interval"
    path := "/powerquality/interval/"
    description := "Returns power quality data based on the provided serialid and the time stamps."
    params := ["device_serialid", "dates", "granularity"]
    required_params := ["device_serialid", "granularity"] }

def pq_aggregated_ep : Endpoint :=
  { name := "Power Quality Aggregated"
    path := "/powerquality/aggregated/"
    description := "Returns aggregated power quality data based on the provided serialid and the time stamps."
    params := ["device_serialid", "dates", "granularity"]
    required_params := ["device_serialid", "granularity"] }

/-- The registry, in the source's insertion order. -/
def endpoints : List Endpoint :=
  [devices_ep, events_interval_ep, pq_live_ep, pq_interval_ep, pq_aggregated_ep]

/-- Source line 105. -/
def base_url : String := "https://v3.edgezeroapi.com/pienergy"

/-- URL construction (source lines 106-120): for endpoints other than
"Devices" the device id is appended as a path suffix; for "Devices" the
path has no suffix.  The initial value "" survives only for endpoints
not accepting a device id (none in the registry). -/
def full_url (ep : Endpoint) (device_serialid : String) : String :=
  if "device_serialid" ∈ ep.params then
    if ep.name = "Devices" then base_url ++ ep.path
    else base_url ++ ep.path ++ device_serialid
  else ""

/-- The one piece of session state: st.session_state.logged_in. -/
structure LoginState where
  logged_in : Bool
  deriving DecidableEq, Repr

/-- Login check (source lines 43-48): membership of the submitted
username in credentials.usernames AND of the submitted password in
credentials.passwords, with no pairing enforced between the two lists.
On success logged_in becomes true with no error; on failure the state
is left unchanged and the fixed message is shown. -/
def authenticate (usernames passwords : List String)
    (username password : String) (s : LoginState) : LoginState × Option String :=
  if username ∈ usernames ∧ password ∈ passwords then
    ({ logged_in := true }, none)
  else
    (s, some "Incorrect username or password")

/-- A value stored in the params dict: starttime/endtime are ints,
device_serialid and granularity are strings. -/
inductive PVal where
  | int (n : Int)
  | str (s : String)
  deriving DecidableEq, Repr

/-- Form state visible at fetch time: the device id text field and the
granularity choice when one has been rendered. -/
structure FormState where
  device_serialid : String
  granularity : Option String
  deriving DecidableEq, Repr

/-- The params dict built while rendering the form (source lines
104-148), in insertion order: device_serialid is added only in the
"Devices" branch and only when truthy (line 119-120); starttime/endtime
are added when the endpoint accepts "dates" (lines 122-134); granularity
is added when the endpoint accepts "granularity" and start_date/end_date
are in locals(), which within one script run holds exactly when the
endpoint accepts "dates" (lines 136-148), with the selectbox returning
its default-selected head option. -/
def build_params (ep : Endpoint) (device_serialid : String)
    (start_date end_date : CivilDate) : List (String × PVal) :=
  let p1 :=
    if "device_serialid" ∈ ep.params ∧ ep.name = "Devices" ∧ device_serialid ≠ "" then
      [("device_serialid", PVal.str device_serialid)]
    else []
  let p2 :=
    if "dates" ∈ ep.params then
      p1 ++ [("starttime", PVal.int (startEpoch start_date)),
             ("endtime", PVal.int (endEpoch end_date))]
    else p1
  if "granularity" ∈ ep.params ∧ "dates" ∈ ep.params then
    p2 ++ [("granularity",
            PVal.str (selectbox_default
              (granularity_options (date_range_days start_date end_date))))]
  else p2

/-- The validation loop run on the fetch click (source lines 153-159):
iterates the endpoint's required_params, but the only condition ever
tested is `param == 'device_serialid' and not device_serialid`.  Returns
the final validation_passed flag and the list of error messages emitted. -/
def validate_fetch (required : List String) (fs : FormState) : Bool × List String :=
  required.foldl
    (fun acc param =>
      if param = "device_serialid" ∧ fs.device_serialid = "" then
        (false, acc.2 ++ ["Device Serial ID is a required parameter for this endpoint."])
      else acc)
    (true, [])

/-- A JSON value as returned by response.json(). -/
inductive JVal where
  | obj (fields : List (String × JVal))
  | arr (items : List JVal)
  | jstr (s : String)
  | jnum (n : Int)
  | jbool (b : Bool)
  | jnull

/-- Python truthiness: `not data` holds exactly when this is true. -/
def pyFalsy : JVal → Bool
  | JVal.obj fields => fields.isEmpty
  | JVal.arr items => items.isEmpty
  | JVal.jstr s => s.isEmpty
  | JVal.jnum n => n == 0
  | JVal.jbool b => !b
  | JVal.jnull => true

/-- First-match association-list lookup, the dict lookup underlying
data.get(key) (a Python dict has no duplicate keys). -/
def assoc : List (String × JVal) → String → Option JVal
  | [], _ => none
  | (k, v) :: rest, key => if k = key then some v else assoc rest key

/-- Membership of a key among a dict's keys. -/
def key_mem : List (String × JVal) → String → Bool
  | [], _ => false
  | (k, _) :: rest, key => k = key || key_mem rest key

/-- Python `'error-code' in data` guarded by `isinstance(data, dict)`. -/
def has_error_code : JVal → Bool
  | JVal.obj fields => key_mem fields "error-code"
  | _ => false

/-- data.get(key) on a dict, none on anything else or a missing key. -/
def dict_get : JVal → String → Option JVal
  | JVal.obj fields, key => assoc fields key
  | _, _ => none

/-- Outcome of handling an HTTP-successful (2xx) JSON body. -/
inductive FetchOutcome where
  | api_error (code : Option JVal) (message : Option JVal)
  | no_data
  | ok (payload : JVal)

/-- Dispatch on a 2xx body (source lines 177-199): a dict containing an
'error-code' key is a hard error surfacing error-code and message; an
otherwise empty payload is the informational no-data case; anything
else proceeds to formatting and the download button. -/
def handle_response (data : JVal) : FetchOutcome :=
  if has_error_code data then
    FetchOutcome.api_error (dict_get data "error-code") (dict_get data "message")
  else if pyFalsy data then FetchOutcome.no_data
  else FetchOutcome.ok data

/-- True exactly when a download file is produced for this outcome. -/
def produces_download : FetchOutcome → Bool
  | FetchOutcome.ok _ => true
  | _ => false

/-- Calendar timestamp produced by pd.to_datetime(..., unit='s'). -/
structure CivilTime where
  year : Int
  month : Int
  day : Int
  hour : Int
  minute : Int
  second : Int
  deriving DecidableEq, Repr

/-- Gregorian date from a count of days since 1970-01-01 (standard
days-to-civil arithmetic, inverse of daysFromCivil). -/
def civilFromDays (z0 : Int) : CivilDate :=
  let z := z0 + 719468
  let era := z / 146097
  let doe := z - era * 146097
  let yoe := (doe - doe / 1460 + doe / 36524 - doe / 146096) / 365
  let y := yoe + era * 400
  let doy := doe - (365 * yoe + yoe / 4 - yoe / 100)
  let mp := (5 * doy + 2) / 153
  let d := doy - (153 * mp + 2) / 5 + 1
  let m := if mp < 10 then mp + 3 else mp - 9
  ⟨if m ≤ 2 then y + 1 else y, m, d⟩

/-- Unix epoch seconds to a UTC calendar timestamp. -/
def epochToCivil (n : Int) : CivilTime :=
  let days := n / 86400
  let sod := n % 86400
  let d := civilFromDays days
  ⟨d.year, d.month, d.day, sod / 3600, sod % 3600 / 60, sod % 60⟩

/-- One cell of the flattened table: a number or a string from the JSON
payload, or a derived timestamp / NaT produced by the readable loop. -/
inductive Cell where
  | num (n : Int)
  | str (s : String)
  | time (t : CivilTime)
  | null
  deriving DecidableEq, Repr

/-- One column of the flattened DataFrame. -/
structure Column where
  name : String
  cells : List Cell
  deriving DecidableEq, Repr

/-- Bool test that the second char list starts the first. -/
def chStarts : List Char → List Char → Bool
  | _, [] => true
  | [], _ :: _ => false
  | a :: as, b :: bs => a == b && chStarts as bs

/-- Bool test that the second char list occurs inside the first. -/
def chHasSub : List Char → List Char → Bool
  | [], needle => needle.isEmpty
  | a :: t, needle => chStarts (a :: t) needle || chHasSub t needle

/-- Python substring test `needle in hay` on strings. -/
def hasSub (hay needle : String) : Bool :=
  chHasSub hay.toList needle.toList

/-- Source line 188: 'time' in col or 'date' in col or 'epoch' in col. -/
def timeNamed (name : String) : Bool :=
  hasSub name "time" || hasSub name "date" || hasSub name "epoch"

/-- pandas is_numeric_dtype on a column: every cell numeric.  A JSON
null becomes NaN, which keeps the dtype numeric (float64), while any
string cell makes the dtype object, hence non-numeric. -/
def is_numeric_dtype (c : Column) : Bool :=
  c.cells.all fun x =>
    match x with
    | Cell.num _ => true
    | Cell.null => true
    | _ => false

/-- pd.to_datetime(value, unit='s', errors='coerce') on one cell of a
numeric column: an epoch inside the pandas Timestamp range becomes a
calendar timestamp; an out-of-range epoch and NaN coerce to NaT. -/
def to_readable : Cell → Cell
  | Cell.num n =>
      if -9223372036 ≤ n ∧ n ≤ 9223372036 then Cell.time (epochToCivil n)
      else Cell.null
  | _ => Cell.null

/-- The readable-column derivation loop (source lines 187-190): it
iterates the columns present when the loop starts, and for each
time/date/epoch-named column whose dtype is numeric it appends the
derived `<col>_readable` column at the end of the table; a time-named
column that is not numeric gets no derived column. -/
def add_readable_columns (tbl : List Column) : List Column :=
  tbl ++ tbl.filterMap fun c =>
    if timeNamed c.name && is_numeric_dtype c then
      some ⟨c.name ++ "_readable", c.cells.map to_readable⟩
    else none

/-! Claim theorems. -/

/-- C1: authenticate succeeds for every (username, password) pair whose
username is in the configured usernames and whose password is in the
configured passwords, even when not originally paired; success sets the
session flag true, and every other pair fails with "Incorrect username
or password", the flag staying false. -/
theorem c1_login_membership (usernames passwords : List String)
    (username password : String) :
    (username ∈ usernames ∧ password ∈ passwords →
      authenticate usernames passwords username password ⟨false⟩ =
        (⟨true⟩, none)) ∧
    (¬ (username ∈ usernames ∧ password ∈ passwords) →
      authenticate usernames passwords username password ⟨false⟩ =
        (⟨false⟩, some "Incorrect username or password")) := by
  constructor <;> intro h <;> simp [authenticate, h]

/-- C1 witness: "alice" paired with "pw2" — a combination not paired in
the configuration ["alice" with "pw1", "bob" with "pw2"] — succeeds. -/
theorem c1_login_membership_witness :
    authenticate ["alice", "bob"] ["pw1", "pw2"] "alice" "pw2" ⟨false⟩ =
      (⟨true⟩, none) :=
  (c1_login_membership ["alice", "bob"] ["pw1", "pw2"] "alice" "pw2").1
    (by decide)

/-- C4: the start date is converted to UTC epoch seconds at start of day
and the end date to end of day 23:59:59.999999 truncated to whole
seconds; for 2024-01-01 these are 1704067200 and 1704153599, and for
every date on or after the epoch day boundary the end epoch is the start
epoch plus 86399 seconds. -/
theorem c4_date_to_epoch :
    startEpoch ⟨2024, 1, 1⟩ = 1704067200 ∧
    endEpoch ⟨2024, 1, 1⟩ = 1704153599 ∧
    (∀ d : CivilDate, -86399 ≤ startEpoch d →
      endEpoch d = startEpoch d + 86399) := by
  refine ⟨by decide, by decide, ?_⟩
  intro d h
  simp [endEpoch, h]

/-- C4 witness: the general end-of-day clause evaluated at 2024-06-15. -/
theorem c4_date_to_epoch_witness :
    endEpoch ⟨2024, 6, 15⟩ = startEpoch ⟨2024, 6, 15⟩ + 86399 :=
  c4_date_to_epoch.2.2 ⟨2024, 6, 15⟩ (by decide)

/-- C5: the granularity options are exactly determined by the span
end_date − start_date in days: span < 1 gives the five-element set,
1 to 7 inclusive the three-element set, and above 7 the two-element set. -/
theorem c5_granularity_cases (start_date end_date : CivilDate) :
    (date_range_days start_date end_date < 1 →
      granularity_options (date_range_days start_date end_date) =
        ["1m", "5m", "15m", "1h", "daily"]) ∧
    (1 ≤ date_range_days start_date end_date ∧
        date_range_days start_date end_date ≤ 7 →
      granularity_options (date_range_days start_date end_date) =
        ["15m", "1h", "daily"]) ∧
    (7 < date_range_days start_date end_date →
      granularity_options (date_range_days start_date end_date) =
        ["1h", "daily"]) := by
  refine ⟨?_, ?_, ?_⟩ <;> intro h <;> unfold granularity_options
  · rw [if_pos h]
  · rw [if_neg (by omega), if_pos h]
  · rw [if_neg (by omega), if_neg (by omega)]

/-- C5 witness: the 7-day span 2024-01-01 to 2024-01-08 offers exactly
the three-element option set. -/
theorem c5_granularity_cases_witness :
    granularity_options (date_range_days ⟨2024, 1, 1⟩ ⟨2024, 1, 8⟩) =
      ["15m", "1h", "daily"] :=
  (c5_granularity_cases ⟨2024, 1, 1⟩ ⟨2024, 1, 8⟩).2.1 (by decide)

/-- C6: for every endpoint other than "Devices" with a non-empty device
id the constructed URL is exactly base + path + device id; for the
"Devices" endpoint the URL is the constant base + path with no device id
in it, and a present device id appears only as the query parameter
device_serialid. -/
theorem c6_url_construction :
    ∀ ep ∈ endpoints,
      (ep.name ≠ "Devices" → ∀ device_serialid : String, device_serialid ≠ "" →
        full_url ep device_serialid = base_url ++ ep.path ++ device_serialid) ∧
      (ep.name = "Devices" →
        ∀ (device_serialid : String) (start_date end_date : CivilDate),
          full_url ep device_serialid = base_url ++ ep.path ∧
          (device_serialid ≠ "" →
            build_params ep device_serialid start_date end_date =
              [("device_serialid", PVal.str device_serialid)])) := by
  intro ep hep
  fin_cases hep <;>
    refine ⟨fun h dsid hd => ?_, fun h dsid sd ed => ?_⟩ <;>
      simp_all [full_url, build_params, devices_ep, events_interval_ep,
        pq_live_ep, pq_interval_ep, pq_aggregated_ep]

/-- C6 witness: the Events Interval endpoint with device id "E9" yields
the suffixed URL. -/
theorem c6_url_construction_witness :
    full_url events_interval_ep "E9" =
      base_url ++ events_interval_ep.path ++ "E9" :=
  (c6_url_construction events_interval_ep (by decide)).1 (by decide) "E9"
    (by decide)

/-- C8: on the "Devices" endpoint an empty device id is omitted
entirely: the parameter map is empty (so it holds no device_serialid key
at all) and the URL is exactly base + "/devices". -/
theorem c8_devices_empty_id (start_date end_date : CivilDate) :
    build_params devices_ep "" start_date end_date = [] ∧
    full_url devices_ep "" = base_url ++ "/devices" := by
  constructor
  · simp [build_params, devices_ep]
  · decide

/-- C9: whenever the end date is strictly earlier than the start date
the computed span in days is negative, hence the granularity options are
the full same-day set, and the inverted starttime/endtime values are
still placed unmodified in the parameter map of every date-accepting
endpoint. -/
theorem c9_inverted_range
    (start_date end_date : CivilDate) (device_serialid : String)
    (hinv : daysFromCivil end_date < daysFromCivil start_date) :
    date_range_days start_date end_date < 0 ∧
    granularity_options (date_range_days start_date end_date) =
      ["1m", "5m", "15m", "1h", "daily"] ∧
    ∀ ep ∈ endpoints, "dates" ∈ ep.params →
      ("starttime", PVal.int (startEpoch start_date)) ∈
        build_params ep device_serialid start_date end_date ∧
      ("endtime", PVal.int (endEpoch end_date)) ∈
        build_params ep device_serialid start_date end_date := by
  have hneg : date_range_days start_date end_date < 0 := by
    simp only [date_range_days]; omega
  refine ⟨hneg, by rw [granularity_options, if_pos (by omega)], ?_⟩
  intro ep hep hdates
  fin_cases hep <;>
    simp_all [build_params, devices_ep, events_interval_ep, pq_live_ep,
      pq_interval_ep, pq_aggregated_ep]

/-- C9 witness: the inverted range 2024-01-02 down to 2024-01-01 has a
negative span and offers the full option set. -/
theorem c9_inverted_range_witness :
    date_range_days ⟨2024, 1, 2⟩ ⟨2024, 1, 1⟩ < 0 ∧
    granularity_options (date_range_days ⟨2024, 1, 2⟩ ⟨2024, 1, 1⟩) =
      ["1m", "5m", "15m", "1h", "daily"] :=
  ⟨(c9_inverted_range ⟨2024, 1, 2⟩ ⟨2024, 1, 1⟩ "E1" (by decide)).1,
   (c9_inverted_range ⟨2024, 1, 2⟩ ⟨2024, 1, 1⟩ "E1" (by decide)).2.1⟩

/-- C10: every registry endpoint accepting "granularity" also accepts
"dates"; the option list is never empty, so the choice renders with a
default selection, and the built parameter map always carries a
granularity key. -/
theorem c10_granularity_always_present :
    ∀ ep ∈ endpoints, "granularity" ∈ ep.params →
      "dates" ∈ ep.params ∧
      (∀ days : Int, granularity_options days ≠ []) ∧
      ∀ (device_serialid : String) (start_date end_date : CivilDate),
        ("granularity",
            PVal.str (selectbox_default
              (granularity_options (date_range_days start_date end_date)))) ∈
          build_params ep device_serialid start_date end_date := by
  intro ep hep hgran
  have hopts : ∀ days : Int, granularity_options days ≠ [] := by
    intro days
    unfold granularity_options
    split
    · simp
    · split <;> simp
  fin_cases hep <;>
    refine ⟨by revert hgran; decide, hopts, fun dsid sd ed => ?_⟩ <;>
      simp_all [build_params, devices_ep, events_interval_ep, pq_live_ep,
        pq_interval_ep, pq_aggregated_ep]

/-- C10 witness: Power Quality Interval on a same-day range carries the
granularity key with the default-selected first option. -/
theorem c10_granularity_always_present_witness :
    ("granularity",
        PVal.str (selectbox_default
          (granularity_options (date_range_days ⟨2024, 1, 1⟩ ⟨2024, 1, 1⟩)))) ∈
      build_params pq_interval_ep "E1" ⟨2024, 1, 1⟩ ⟨2024, 1, 1⟩ :=
  (c10_granularity_always_present pq_interval_ep (by decide) (by decide)).2.2
    "E1" ⟨2024, 1, 1⟩ ⟨2024, 1, 1⟩

/-- C3 counterexample: on Power Quality Interval, whose required set
contains "granularity", a form state with a non-empty device id and no
granularity value at all passes validation with no error message — the
validator never confirms a value for "granularity", contradicting the
claim that every required parameter is checked and a missing one blocks
the fetch. -/
theorem c3_validation_counterexample :
    "granularity" ∈ pq_interval_ep.required_params ∧
    (FormState.mk "E123" none).granularity = none ∧
    validate_fetch pq_interval_ep.required_params (FormState.mk "E123" none) =
      (true, []) := by decide

/-- C3 amended: the validation loop only ever tests the device id — an
empty device id on an endpoint requiring it blocks the fetch with
exactly one error message, while any form state with a non-empty device
id passes validation regardless of every other required parameter
(in particular "granularity" is never checked). -/
theorem c3_validation_only_checks_device_id :
    ∀ ep ∈ endpoints, ∀ fs : FormState,
      ("device_serialid" ∈ ep.required_params ∧ fs.device_serialid = "" →
        validate_fetch ep.required_params fs =
          (false,
           ["Device Serial ID is a required parameter for this endpoint."])) ∧
      (fs.device_serialid ≠ "" →
        validate_fetch ep.required_params fs = (true, [])) := by
  intro ep hep fs
  fin_cases hep <;>
    constructor <;> intro h <;>
      simp_all [validate_fetch, devices_ep, events_interval_ep, pq_live_ep,
        pq_interval_ep, pq_aggregated_ep]

/-- C3 amended witness: Events Interval with an empty device id is
blocked with the single device id error message. -/
theorem c3_validation_only_checks_device_id_witness :
    validate_fetch events_interval_ep.required_params (FormState.mk "" none) =
      (false, ["Device Serial ID is a required parameter for this endpoint."]) :=
  (c3_validation_only_checks_device_id events_interval_ep (by decide)
    (FormState.mk "" none)).1 (by decide)

/-- C7: a 2xx JSON body that is a dict containing an "error-code" key is
treated as a hard error surfacing the body's error-code and message
values and produces no download; any empty 2xx payload yields the
informational no-data outcome, also without a download and without being
an error. -/
theorem c7_error_code_and_empty_payload :
    (∀ fields : List (String × JVal), key_mem fields "error-code" = true →
      handle_response (JVal.obj fields) =
        FetchOutcome.api_error (assoc fields "error-code")
          (assoc fields "message") ∧
      produces_download (handle_response (JVal.obj fields)) = false) ∧
    (∀ data : JVal, pyFalsy data = true →
      handle_response data = FetchOutcome.no_data ∧
      produces_download (handle_response data) = false) := by
  constructor
  · intro fields h
    simp [handle_response, has_error_code, dict_get, h, produces_download]
  · intro data h
    have hf : has_error_code data = false := by
      cases data <;> simp_all [pyFalsy, has_error_code, key_mem]
    simp [handle_response, hf, h, produces_download]

/-- C7 witness: the body from the spec, a 200 dict with error-code 4 and
message "no device", is surfaced as an API error and yields no download. -/
theorem c7_error_code_and_empty_payload_witness :
    handle_response
        (JVal.obj [("error-code", JVal.jnum 4),
                   ("message", JVal.jstr "no device")]) =
      FetchOutcome.api_error
        (assoc [("error-code", JVal.jnum 4),
                ("message", JVal.jstr "no device")] "error-code")
        (assoc [("error-code", JVal.jnum 4),
                ("message", JVal.jstr "no device")] "message") ∧
    produces_download
        (handle_response
          (JVal.obj [("error-code", JVal.jnum 4),
                     ("message", JVal.jstr "no device")])) = false :=
  c7_error_code_and_empty_payload.1
    [("error-code", JVal.jnum 4), ("message", JVal.jstr "no device")] rfl

/-- C2 counterexample: "starttime" is a time-named column, yet when its
single cell is the string "n/a" the formatter adds no derived column at
all — the output table is unchanged and holds no "starttime_readable"
column, contradicting the claim that every time-named column gets a
derived column (null-valued for non-numeric data). -/
theorem c2_readable_counterexample :
    timeNamed "starttime" = true ∧
    add_readable_columns [Column.mk "starttime" [Cell.str "n/a"]] =
      [Column.mk "starttime" [Cell.str "n/a"]] := by decide

/-- C2 amended: the formatter derives "<col>_readable" (each epoch value
converted to a calendar timestamp, unparsable values coerced to null)
exactly for the time/date/epoch-named columns whose dtype is numeric; a
"starttime" column with value 1704067200 gains "starttime_readable"
equal to 2024-01-01T00:00:00Z, while a time-named column holding a
non-numeric value gains no derived column, the export succeeding
unchanged in that case. -/
theorem c2_readable_columns :
    (∀ (tbl : List Column) (col : Column), col ∈ tbl →
      timeNamed col.name = true → is_numeric_dtype col = true →
      Column.mk (col.name ++ "_readable") (col.cells.map to_readable)
        ∈ add_readable_columns tbl) ∧
    add_readable_columns [Column.mk "starttime" [Cell.num 1704067200]] =
      [Column.mk "starttime" [Cell.num 1704067200],
       Column.mk "starttime_readable"
         [Cell.time (CivilTime.mk 2024 1 1 0 0 0)]] ∧
    add_readable_columns [Column.mk "starttime" [Cell.str "n/a"]] =
      [Column.mk "starttime" [Cell.str "n/a"]] := by
  refine ⟨?_, by decide, by decide⟩
  intro tbl col hmem ht hn
  unfold add_readable_columns
  refine List.mem_append_right _ ?_
  refine List.mem_filterMap.mpr ⟨col, hmem, ?_⟩
  simp [ht, hn]

/-- C2 witness: a numeric "epoch" column gains its derived column, the
epoch second 1 reading as 1970-01-01T00:00:01Z. -/
theorem c2_readable_columns_witness :
    Column.mk ("epoch" ++ "_readable")
        ((Column.mk "epoch" [Cell.num 1]).cells.map to_readable)
      ∈ add_readable_columns [Column.mk "epoch" [Cell.num 1]] :=
  c2_readable_columns.1 [Column.mk "epoch" [Cell.num 1]]
    (Column.mk "epoch" [Cell.num 1]) (by decide) (by decide) (by decide)

end EdgeAPI
